import Mathlib

/-!
Verification of the growth-and-carbon accounting engine of `app.py`
(shekokarmahesh/New-Carbon-calculator).

Modelling conventions.

* IEEE double-precision numbers are idealised as exact rationals (`ℚ`);
  decimal literals from the source are transcribed as exact decimal fractions.
* The transcendental primitives of Python's `math` module (`exp`, `log`,
  `sqrt`) and float exponentiation `**` are not rational-valued; they are
  abstracted as an explicit parameter record `MathPrims`, and every pipeline
  definition is parametrised by it.  No claim depends on their values.
* `evaluate_agb` in the source calls Python `eval(tmp, {"__builtins__": None,
  "math": math}, {"DBH": dbh})` after three textual substitutions
  (`.replace("math.", "")`, `.replace("^", "**")`, and the case-insensitive
  regex rewrites of `exp(` / `ln(` to `math.exp(` / `math.log(`).  We model
  the textual preprocessing exactly, and model `eval` by a tokenizer, a
  parser and an evaluator for the reachable Python expression fragment:
  numeric literals, names, attribute access, single-argument calls, unary
  `+`/`-`, and the binary operators `+ - * / **` with Python's precedence
  and evaluation order.  Python constructs outside this fragment (strings,
  comparisons, floor division, multi-argument calls, ...) are not modelled;
  no theorem below mentions an equation text that uses them.
* Python exceptions are modelled as values of `PyErr` / `EngineError`.
  The source raises `ValueError` with distinguishing messages for the
  unknown-species and horizon cases; we model the kinds as constructors and
  do not model the message strings (the source's wrapping of messages with
  species / planting-year context keeps the kind unchanged).
-/

deriving instance DecidableEq for Except

/-- Abstract stand-ins for the IEEE implementations of `math.exp`, `math.log`,
`math.sqrt` and float `**`.  The engine is verified for every choice. -/
structure MathPrims where
  mexp : ℚ → ℚ
  mlog : ℚ → ℚ
  msqrt : ℚ → ℚ
  mpow : ℚ → ℚ → ℚ

/-- A concrete instantiation used by the closed witnesses below. -/
def onePrims : MathPrims :=
  { mexp := fun _ => 1, mlog := fun _ => 1, msqrt := fun _ => 1, mpow := fun _ _ => 1 }

/-- Kinds of Python exceptions reachable from `evaluate_agb`.
`mathDomainError` stands for the `ValueError: math domain error` raised by
`math.log` / `math.sqrt` on out-of-domain arguments. -/
inductive PyErr where
  | synError
  | nameError
  | attributeError
  | typeError
  | zeroDivisionError
  | mathDomainError
deriving DecidableEq

/-- The three `math`-module functions reachable from equation texts in the
modelled fragment. -/
inductive MathFnT where
  | fexp
  | flog
  | fsqrt
deriving DecidableEq

/-- Python values reachable during evaluation of an equation text:
numbers, `None` (the value bound to `__builtins__`), the `math` module
object, and the `math` functions. -/
inductive PyVal where
  | num (q : ℚ)
  | noneV
  | mathModule
  | mathFn (f : MathFnT)
deriving DecidableEq

/-- Tokens of the Python expression fragment. -/
inductive Tok where
  | tnum (q : ℚ)
  | tname (s : String)
  | tplus
  | tminus
  | tstar
  | tslash
  | tpow
  | tlp
  | trp
  | tdot
deriving DecidableEq

/-- Binary operators of the fragment. -/
inductive BOp where
  | add
  | sub
  | mul
  | div
  | pow
deriving DecidableEq

/-- Abstract syntax of the Python expression fragment. -/
inductive Expr where
  | num (q : ℚ)
  | name (s : String)
  | attr (e : Expr) (fld : String)
  | call (f : Expr) (a : Expr)
  | pos (e : Expr)
  | neg (e : Expr)
  | bin (op : BOp) (l r : Expr)
deriving DecidableEq

/-- Word characters in the sense of the regex `\b` boundary: `[A-Za-z0-9_]`. -/
def isWordChar (c : Char) : Bool :=
  c.isAlpha || c.isDigit || c = '_'

/-- Case-insensitive character equality, for the `(?i)` regex flag. -/
def chEqCI (a b : Char) : Bool :=
  a.toLower = b.toLower

/-- Case-insensitive test that `s` starts with `pat`. -/
def startsWithCI : List Char → List Char → Bool
  | [], _ => true
  | _ :: _, [] => false
  | p :: ps, c :: cs => chEqCI p c && startsWithCI ps cs

/-- Exact test that `s` starts with `pat`. -/
def startsWithX : List Char → List Char → Bool
  | [], _ => true
  | _ :: _, [] => false
  | p :: ps, c :: cs => (p = c) && startsWithX ps cs

/-- Fuel-driven core of `replaceAll`; every step consumes at least one input
character (the patterns used are nonempty), so fuel `length + 1` suffices. -/
def replaceAllAux (pat repl : List Char) : Nat → List Char → List Char
  | 0, s => s
  | _ + 1, [] => []
  | f + 1, c :: cs =>
    if startsWithX pat (c :: cs) then
      repl ++ replaceAllAux pat repl f ((c :: cs).drop pat.length)
    else
      c :: replaceAllAux pat repl f cs

/-- Python `str.replace pat repl`: non-overlapping left-to-right replacement
of every occurrence, replacements not rescanned. -/
def replaceAll (pat repl s : List Char) : List Char :=
  replaceAllAux pat repl (s.length + 1) s

/-- Fuel-driven core of `rewriteFn`.  `prevW` records whether the previous
character of the original string is a word character, so that a match is
accepted only at a `\b` boundary.  Both patterns used end in `'('`, hence
after a match the previous-character state is `false`.  As in `re.sub`, the
inserted replacement is not rescanned. -/
def rewriteFnAux (pat repl : List Char) : Nat → Bool → List Char → List Char
  | 0, _, s => s
  | _ + 1, _, [] => []
  | f + 1, prevW, c :: cs =>
    if !prevW && startsWithCI pat (c :: cs) then
      repl ++ rewriteFnAux pat repl f false ((c :: cs).drop pat.length)
    else
      c :: rewriteFnAux pat repl f (isWordChar c) cs

/-- The regex substitution `re.sub(r"(?i)\bNAME\(", "math.NAME(", s)` used by
`evaluate_agb` for `exp` and `ln`.  At the start of the string `\b` holds. -/
def rewriteFn (pat repl s : List Char) : List Char :=
  rewriteFnAux pat repl (s.length + 1) false s

/-- The textual preprocessing performed by `evaluate_agb` (lines 152-155 of
`app.py`), in source order: strip `math.`, turn `^` into `**`, then rewrite
`exp(` and `ln(` (case-insensitively, at word boundaries) to the `math`
module calls. -/
def preprocess (s : List Char) : List Char :=
  rewriteFn ("ln(".toList) ("math.log(".toList)
    (rewriteFn ("exp(".toList) ("math.exp(".toList)
      (replaceAll ("^".toList) ("**".toList)
        (replaceAll ("math.".toList) [] s)))

/-- Numeric value of a digit string. -/
def digitsVal (ds : List Char) : ℕ :=
  ds.foldl (fun a c => 10 * a + (c.toNat - 48)) 0

/-- Fuel-driven tokenizer for the Python expression fragment.  Every step
consumes at least one character, so fuel `length + 1` suffices.  A character
outside the fragment yields `none` (Python: `SyntaxError`). -/
def tokenizeAux : Nat → List Char → Option (List Tok)
  | 0, _ => none
  | _ + 1, [] => some []
  | f + 1, c :: cs =>
    if c = ' ' ∨ c = '\t' then tokenizeAux f cs
    else if c.isDigit then
      let ds := (c :: cs).takeWhile Char.isDigit
      let r1 := (c :: cs).dropWhile Char.isDigit
      match r1 with
      | '.' :: r2 =>
        let fs := r2.takeWhile Char.isDigit
        let r3 := r2.dropWhile Char.isDigit
        (tokenizeAux f r3).map fun ts =>
          Tok.tnum ((digitsVal ds : ℚ) + (digitsVal fs : ℚ) / (10 : ℚ) ^ fs.length) :: ts
      | _ =>
        (tokenizeAux f r1).map fun ts => Tok.tnum (digitsVal ds : ℚ) :: ts
    else if c.isAlpha ∨ c = '_' then
      let nm := (c :: cs).takeWhile isWordChar
      let r1 := (c :: cs).dropWhile isWordChar
      (tokenizeAux f r1).map fun ts => Tok.tname (String.mk nm) :: ts
    else if c = '.' then
      match cs with
      | d :: _ =>
        if d.isDigit then
          let fs := cs.takeWhile Char.isDigit
          let r2 := cs.dropWhile Char.isDigit
          (tokenizeAux f r2).map fun ts =>
            Tok.tnum ((digitsVal fs : ℚ) / (10 : ℚ) ^ fs.length) :: ts
        else (tokenizeAux f cs).map fun ts => Tok.tdot :: ts
      | [] => (tokenizeAux f cs).map fun ts => Tok.tdot :: ts
    else if c = '+' then (tokenizeAux f cs).map fun ts => Tok.tplus :: ts
    else if c = '-' then (tokenizeAux f cs).map fun ts => Tok.tminus :: ts
    else if c = '*' then
      match cs with
      | '*' :: cs2 => (tokenizeAux f cs2).map fun ts => Tok.tpow :: ts
      | _ => (tokenizeAux f cs).map fun ts => Tok.tstar :: ts
    else if c = '/' then (tokenizeAux f cs).map fun ts => Tok.tslash :: ts
    else if c = '(' then (tokenizeAux f cs).map fun ts => Tok.tlp :: ts
    else if c = ')' then (tokenizeAux f cs).map fun ts => Tok.trp :: ts
    else none

/-- Tokenize a character list. -/
def tokenize (s : List Char) : Option (List Tok) :=
  tokenizeAux (s.length + 1) s

mutual

/-- Additive level: `term (('+'|'-') term)*`. -/
def pAdd : Nat → List Tok → Option (Expr × List Tok)
  | 0, _ => none
  | f + 1, ts =>
    match pMul f ts with
    | some (e, r) => pAddL f e r
    | none => none

/-- Left-factored loop of the additive level. -/
def pAddL : Nat → Expr → List Tok → Option (Expr × List Tok)
  | 0, _, _ => none
  | f + 1, acc, Tok.tplus :: r =>
    match pMul f r with
    | some (e, r2) => pAddL f (Expr.bin BOp.add acc e) r2
    | none => none
  | f + 1, acc, Tok.tminus :: r =>
    match pMul f r with
    | some (e, r2) => pAddL f (Expr.bin BOp.sub acc e) r2
    | none => none
  | _ + 1, acc, ts => some (acc, ts)

/-- Multiplicative level: `unary (('*'|'/') unary)*`. -/
def pMul : Nat → List Tok → Option (Expr × List Tok)
  | 0, _ => none
  | f + 1, ts =>
    match pUn f ts with
    | some (e, r) => pMulL f e r
    | none => none

/-- Left-factored loop of the multiplicative level. -/
def pMulL : Nat → Expr → List Tok → Option (Expr × List Tok)
  | 0, _, _ => none
  | f + 1, acc, Tok.tstar :: r =>
    match pUn f r with
    | some (e, r2) => pMulL f (Expr.bin BOp.mul acc e) r2
    | none => none
  | f + 1, acc, Tok.tslash :: r =>
    match pUn f r with
    | some (e, r2) => pMulL f (Expr.bin BOp.div acc e) r2
    | none => none
  | _ + 1, acc, ts => some (acc, ts)

/-- Unary level (Python `factor`): `('+'|'-') factor | power`. -/
def pUn : Nat → List Tok → Option (Expr × List Tok)
  | 0, _ => none
  | f + 1, Tok.tplus :: r => (pUn f r).map fun p => (Expr.pos p.1, p.2)
  | f + 1, Tok.tminus :: r => (pUn f r).map fun p => (Expr.neg p.1, p.2)
  | f + 1, ts => pPow f ts

/-- Power level (Python `power`): `primary ['**' factor]`, right-binding with
the exponent at the unary level, so `-2**2 = -(2**2)` and `2**-1` parses. -/
def pPow : Nat → List Tok → Option (Expr × List Tok)
  | 0, _ => none
  | f + 1, ts =>
    match pPrimary f ts with
    | some (e, Tok.tpow :: r2) => (pUn f r2).map fun p => (Expr.bin BOp.pow e p.1, p.2)
    | some (e, r) => some (e, r)
    | none => none

/-- Primary: an atom followed by attribute / call trailers. -/
def pPrimary : Nat → List Tok → Option (Expr × List Tok)
  | 0, _ => none
  | f + 1, ts =>
    match pAtom f ts with
    | some (e, r) => pTrail f e r
    | none => none

/-- Trailer loop: `.name` attribute access and `(expr)` single-argument
calls, as used by the reachable `math.fn(x)` applications. -/
def pTrail : Nat → Expr → List Tok → Option (Expr × List Tok)
  | 0, _, _ => none
  | f + 1, acc, Tok.tdot :: Tok.tname s :: r => pTrail f (Expr.attr acc s) r
  | f + 1, acc, Tok.tlp :: r =>
    match pAdd f r with
    | some (a, Tok.trp :: r2) => pTrail f (Expr.call acc a) r2
    | _ => none
  | _ + 1, acc, ts => some (acc, ts)

/-- Atoms: numeric literals, names, parenthesised expressions. -/
def pAtom : Nat → List Tok → Option (Expr × List Tok)
  | 0, _ => none
  | _ + 1, Tok.tnum q :: r => some (Expr.num q, r)
  | _ + 1, Tok.tname s :: r => some (Expr.name s, r)
  | f + 1, Tok.tlp :: r =>
    match pAdd f r with
    | some (e, Tok.trp :: r2) => some (e, r2)
    | _ => none
  | _ + 1, _ => none

end

/-- Preprocess, tokenize and parse an equation text; `none` models Python's
`SyntaxError` (including trailing unconsumed tokens). -/
def parseEqText (eq : String) : Option Expr :=
  match tokenize (preprocess eq.toList) with
  | none => none
  | some ts =>
    match pAdd (10 * ts.length + 10) ts with
    | some (e, []) => some e
    | _ => none

/-- Attribute lookup on the `math` module object, for the attributes
reachable in the modelled fragment. -/
def mathAttr : String → Option PyVal
  | "exp" => some (PyVal.mathFn MathFnT.fexp)
  | "log" => some (PyVal.mathFn MathFnT.flog)
  | "sqrt" => some (PyVal.mathFn MathFnT.fsqrt)
  | _ => none

/-- Application of a `math` function, with the domain errors raised by
CPython (`math.log` and `math.sqrt` raise `ValueError` outside their
domains; `math.exp` is total up to overflow, which is not modelled). -/
def applyMathFn (P : MathPrims) : MathFnT → ℚ → Except PyErr PyVal
  | MathFnT.fexp, x => Except.ok (PyVal.num (P.mexp x))
  | MathFnT.flog, x =>
    if x ≤ 0 then Except.error PyErr.mathDomainError
    else Except.ok (PyVal.num (P.mlog x))
  | MathFnT.fsqrt, x =>
    if x < 0 then Except.error PyErr.mathDomainError
    else Except.ok (PyVal.num (P.msqrt x))

/-- Name resolution inside `eval`, exactly the environment built at line 156
of `app.py`: locals `{"DBH": dbh}`, globals `{"__builtins__": None,
"math": math}`.  Every other name raises `NameError` (builtins are
disabled because `__builtins__` is `None`). -/
def evalNameEnv (dbh : ℚ) (n : String) : Option PyVal :=
  if n = "DBH" then some (PyVal.num dbh)
  else if n = "math" then some PyVal.mathModule
  else if n = "__builtins__" then some PyVal.noneV
  else none

/-- Evaluator for the expression fragment, following Python's evaluation
order (function before argument, left operand before right operand) and
error behaviour. -/
def evalE (P : MathPrims) (dbh : ℚ) : Expr → Except PyErr PyVal
  | Expr.num q => Except.ok (PyVal.num q)
  | Expr.name n =>
    match evalNameEnv dbh n with
    | some v => Except.ok v
    | none => Except.error PyErr.nameError
  | Expr.attr e fld =>
    match evalE P dbh e with
    | Except.error er => Except.error er
    | Except.ok PyVal.mathModule =>
      match mathAttr fld with
      | some v => Except.ok v
      | none => Except.error PyErr.attributeError
    | Except.ok _ => Except.error PyErr.attributeError
  | Expr.call fe ae =>
    match evalE P dbh fe with
    | Except.error er => Except.error er
    | Except.ok vf =>
      match evalE P dbh ae with
      | Except.error er => Except.error er
      | Except.ok va =>
        match vf, va with
        | PyVal.mathFn fn, PyVal.num x => applyMathFn P fn x
        | PyVal.mathFn _, _ => Except.error PyErr.typeError
        | _, _ => Except.error PyErr.typeError
  | Expr.pos e =>
    match evalE P dbh e with
    | Except.error er => Except.error er
    | Except.ok (PyVal.num x) => Except.ok (PyVal.num x)
    | Except.ok _ => Except.error PyErr.typeError
  | Expr.neg e =>
    match evalE P dbh e with
    | Except.error er => Except.error er
    | Except.ok (PyVal.num x) => Except.ok (PyVal.num (-x))
    | Except.ok _ => Except.error PyErr.typeError
  | Expr.bin op l r =>
    match evalE P dbh l with
    | Except.error er => Except.error er
    | Except.ok vl =>
      match evalE P dbh r with
      | Except.error er => Except.error er
      | Except.ok vr =>
        match vl, vr with
        | PyVal.num a, PyVal.num b =>
          match op with
          | BOp.add => Except.ok (PyVal.num (a + b))
          | BOp.sub => Except.ok (PyVal.num (a - b))
          | BOp.mul => Except.ok (PyVal.num (a * b))
          | BOp.div =>
            if b = 0 then Except.error PyErr.zeroDivisionError
            else Except.ok (PyVal.num (a / b))
          | BOp.pow => Except.ok (PyVal.num (P.mpow a b))
        | _, _ => Except.error PyErr.typeError

/-- The final `float(...)` conversion: numbers pass through, any other value
raises `TypeError`. -/
def pyFloat : PyVal → Except PyErr ℚ
  | PyVal.num q => Except.ok q
  | _ => Except.error PyErr.typeError

/-- Model of `evaluate_agb` in `app.py` (lines 149-156): guard on `dbh <= 0`, textual
preprocessing, then `float(eval(tmp, {"__builtins__": None, "math": math},
{"DBH": dbh}))`. -/
def evaluate_agb (P : MathPrims) (eq : String) (dbh : ℚ) : Except PyErr ℚ :=
  if dbh ≤ 0 then Except.ok 0
  else
    match parseEqText eq with
    | none => Except.error PyErr.synError
    | some e =>
      match evalE P dbh e with
      | Except.error er => Except.error er
      | Except.ok v => pyFloat v

/-- Case-insensitive string equality on the underlying characters. -/
def strEqCI (a b : String) : Bool :=
  a.toList.map Char.toLower = b.toList.map Char.toLower

/-- Modelled from the spec (section 4.2): the identifiers the sandboxed
grammar allows to resolve are `DBH` and the case-insensitive function names
`exp` and `ln`. -/
def specAllowedIdent (n : String) : Bool :=
  n = "DBH" || strEqCI n "exp" || strEqCI n "ln"

/-- Modelled from the spec (section 4.2): a token the spec grammar does not
contain.  Attribute dots and any identifier other than `DBH` / `exp` / `ln`
are outside the grammar of addition, subtraction, multiplication, division,
parentheses, exponentiation, `exp`, `ln`, numeric literals and `DBH`. -/
def specAllowedTok : Tok → Bool
  | Tok.tname n => specAllowedIdent n
  | Tok.tdot => false
  | _ => true

/-- Modelled from the spec: a sufficient syntactic check that an equation
text lies outside the spec's expression grammar (after reading `^` as the
grammar's exponentiation spelling it fails to tokenize, or it contains a
token the grammar has no production for). -/
def outsideSpecGrammar (eq : String) : Bool :=
  match tokenize (replaceAll ("^".toList) ("**".toList) eq.toList) with
  | none => true
  | some ts => ts.any fun t => !specAllowedTok t

/-- The parsed form of the probe text `"math .sqrt(DBH)"` (the space defeats
the `replace("math.", "")` stripping, which matches only the exact substring
`math.`). -/
def sqrtProbe : Expr :=
  Expr.call (Expr.attr (Expr.name "math") "sqrt") (Expr.name "DBH")

/-- One entry of `SPECIES_METADATA`. -/
structure SpeciesDef where
  species_id : String
  species_name : String
  allometric_equation : String
  rsr : ℚ
deriving DecidableEq

/-- Model of `SPECIES_METADATA` in `app.py` (lines 48-72), transcribed verbatim;
the adjacent string literals of the SANT equation concatenate. -/
def SPECIES_METADATA : List SpeciesDef :=
  [ { species_id := "CASEQ", species_name := "Casuarina equisetifolia",
      allometric_equation := "EXP(-1.17)*(DBH^2.119)/1000", rsr := 0.351 },
    { species_id := "SWMAC", species_name := "Swietenia macrophylla",
      allometric_equation := "0.048*(DBH^2.68)/1000", rsr := 0.351 },
    { species_id := "TEGRA", species_name := "Tectona grandis",
      allometric_equation := "0.054*(DBH^2.579)/1000", rsr := 0.351 },
    { species_id := "EURO", species_name := "Eucalyptus urophylla",
      allometric_equation := "exp(-0.751)*(DBH^2.016)*(exp(0.517^2/2))/1000", rsr := 0.351 },
    { species_id := "SANT", species_name := "Santalum album",
      allometric_equation := "exp(-1.803-0.976*0.2739+0.976*ln(0.752)+2.673*ln(DBH)-0.0299*(ln(DBH)^2))/1000",
      rsr := 0.351 },
    { species_id := "NEO", species_name := "Neolamarckia cadamba",
      allometric_equation := "0.014*(DBH^2.958)/1000", rsr := 0.351 },
    { species_id := "PTERO", species_name := "Pterocarpus indicus",
      allometric_equation := "0.065*(DBH^2.28)/1000", rsr := 0.351 },
    { species_id := "FALFA", species_name := "Falcataria falcata",
      allometric_equation := "0.3196*(DBH**1.9834)/1000", rsr := 0.351 },
    { species_id := "ACMAN", species_name := "Acacia mangium",
      allometric_equation := "0.1173*(DBH**2.454)/1000", rsr := 0.351 } ]

/-- The metadata lookup of `get_recs_for_species` (lines 160-161):
`pd.DataFrame(SPECIES_METADATA).set_index("species_id").loc[sid,
["allometric_equation", "rsr"]]`; a missing id raises `KeyError`. -/
def lookupMeta (sid : String) : Option (String × ℚ) :=
  (SPECIES_METADATA.find? fun m => m.species_id == sid).map fun m =>
    (m.allometric_equation, m.rsr)

/-- Growth curve of CASEQ (`DBH_VALUES["CASEQ"]`, 41 entries). -/
def CASEQ_curve : List ℚ :=
  [0, 0, 0, 6.389391911, 8.159903223, 9.776411409, 11.25231201, 12.5998354,
   13.83014812, 14.95344543, 15.97903576, 16.9154179, 17.77035138, 18.55092078,
   19.26359447, 19.91427818, 20.50836392, 21.05077473, 21.5460054, 21.99815978,
   22.41098473, 22.78790123, 23.13203266, 23.44623075, 23.73309918, 23.99501513,
   24.23414904, 24.45248252, 24.65182487, 24.83382796, 25, 25.15171802, 25.29023926,
   25.4167116, 25.53218309, 25.63761061, 25.7338678, 25.82175231, 25.90199244,
   25.97525309, 26.04214136]

/-- Growth curve of SWMAC (`DBH_VALUES["SWMAC"]`, 41 entries). -/
def SWMAC_curve : List ℚ :=
  [0, 0, 0, 7.827175326, 9.817931271, 11.66343205, 13.38804225, 15.00821858,
   16.5359994, 17.98068726, 19.34976239, 20.64942264, 21.88492382, 23.06080545,
   24.18104661, 25.24917743, 26.26836107, 27.24145547, 28.17106098, 29.05955766,
   29.90913507, 30.72181639, 31.49947817, 32.24386678, 32.95661213, 33.63923939,
   34.29317896, 34.91977504, 35.52029315, 36.0959266, 36.64780232, 37.17698589,
   37.68448609, 38.17125895, 38.63821142, 39.08620463, 39.51605687, 39.92854634,
   40.32441355, 40.70436369, 41.06906862]

/-- Growth curve of TEGRA (`DBH_VALUES["TEGRA"]`, 41 entries). -/
def TEGRA_curve : List ℚ :=
  [0, 0, 0, 5.625737863, 7.742335059, 9.815361302, 11.81674369, 13.73078541,
   15.54912214, 17.26800565, 18.88669559, 20.40644433, 21.82982668, 23.16028297,
   24.40180054, 25.55868821, 26.63541532, 27.63649633, 28.56640835, 29.42953265,
   30.23011396, 30.97223298, 31.65978862, 32.29648776, 32.88584041, 33.43115897,
   33.93556056, 34.40197147, 34.83313327, 35.23160987, 35.59979544, 35.93992261,
   36.25407096, 36.54417549, 36.81203507, 37.05932063, 37.28758318, 37.49826145,
   37.69268926, 37.87210255, 38.03764601]

/-- Growth curve of EURO (`DBH_VALUES["EURO"]`, 41 entries). -/
def EURO_curve : List ℚ :=
  [0, 0, 0, 8.705157082, 10.70957595, 12.53993644, 14.23146924, 15.80708084,
   17.28294782, 18.67116698, 19.98117225, 21.22056047, 22.39560528, 23.51159352,
   24.57305488, 25.58392412, 26.54765887, 27.46732747, 28.34567576, 29.18517884,
   29.98808187, 30.75643268, 31.49210816, 32.19683594, 32.87221227, 33.51971704,
   34.14072641, 34.73652358, 35.30830801, 35.85720335, 36.38426438, 36.89048303,
   37.3767937, 37.84407789, 38.29316841, 38.72485307, 39.13987796, 39.53895046,
   39.92274192, 40.29189007, 40.64700122]

/-- Growth curve of SANT (`DBH_VALUES["SANT"]`, 41 entries). -/
def SANT_curve : List ℚ :=
  [0, 0, 0, 3.202132074, 4.188917796, 5.137959664, 6.050701354, 6.928531321,
   7.772784914, 8.584746407, 9.365650948, 10.11668644, 10.83899536, 11.53367648,
   12.20178654, 12.84434186, 13.46231989, 14.05666071, 14.62826841, 15.17801252,
   15.70672931, 16.21522305, 16.70426727, 17.1746059, 17.6269544, 18.0620009,
   18.48040718, 18.88280971, 19.26982064, 19.64202866, 20, 20.34427919, 20.67538994,
   20.99383594, 21.3001016, 21.59465283, 21.87793767, 22.15038707, 22.41241548,
   22.66442148, 22.90678844]

/-- Growth curve of NEO (`DBH_VALUES["NEO"]`, 41 entries). -/
def NEO_curve : List ℚ :=
  [0, 0, 0, 12.610662, 16.42049544, 19.89978132, 23.05607385, 25.90691031,
   28.4740003, 30.78039699, 32.84902839, 34.70191986, 36.35979395, 37.84188556,
   39.16588336, 40.34794554, 41.40275898, 42.34362257, 43.18254268, 43.93033324,
   44.59671561, 45.19041539, 45.71925432, 46.19023639, 46.60962769, 46.98302985,
   47.31544723, 47.61134813, 47.87472033, 48.10912121, 48.31772315, 48.50335427,
   48.66853511, 48.81551156, 48.94628436, 49.06263556, 49.16615211, 49.2582471,
   49.3401786, 49.41306655, 49.47790784]

/-- Growth curve of PTERO (`DBH_VALUES["PTERO"]`, 41 entries). -/
def PTERO_curve : List ℚ :=
  [0, 0, 0, 9.294857627, 12.01162084, 14.55741126, 16.94298862, 19.17843556,
   21.27320014, 23.23613588, 25.07553909, 26.79918399, 28.41435555, 29.92788026,
   31.34615502, 32.67517416, 33.92055475, 35.08756038, 36.18112338, 37.20586569,
   38.16611837, 39.06593991, 39.9091334, 40.69926259, 41.43966694, 42.13347576,
   42.78362144, 43.3928518, 43.96374175, 44.49870414, 45.0, 45.46974804,
   45.90993364, 46.32241724, 46.7089422, 47.07114217, 47.41054798, 47.72859411,
   48.0266248, 48.30589966, 48.56759904]

/-- Growth curve of FALFA (`DBH_VALUES["FALFA"]`, 41 entries). -/
def FALFA_curve : List ℚ :=
  [0.0, 3.5, 6.5, 10.0, 14.5, 19.0, 23.5, 27.5, 31.0, 34.5,
   37.5, 39.0, 40.5, 42.0, 43.5, 45.0, 46.4, 47.8,
   49.2, 50.6, 52.0, 53.3, 54.6, 55.9, 57.2, 58.5, 59.6, 60.7, 61.8, 62.9,
   64.0, 64.9, 65.8, 66.7, 67.6, 68.5, 69.2, 69.9, 70.6, 71.3, 72.0]

/-- Growth curve of ACMAN (`DBH_VALUES["ACMAN"]`, 11 entries, ages 0-10). -/
def ACMAN_curve : List ℚ :=
  [0.0, 5.05, 10.10, 15.15, 18.06, 20.97, 23.88, 26.79, 29.70, 32.61, 35.52]

/-- The `DBH_VALUES` dictionary of `app.py` (lines 75-131); `.get` returns
`None` for an absent key. -/
def DBH_VALUES (sid : String) : Option (List ℚ) :=
  if sid = "CASEQ" then some CASEQ_curve
  else if sid = "SWMAC" then some SWMAC_curve
  else if sid = "TEGRA" then some TEGRA_curve
  else if sid = "EURO" then some EURO_curve
  else if sid = "SANT" then some SANT_curve
  else if sid = "NEO" then some NEO_curve
  else if sid = "PTERO" then some PTERO_curve
  else if sid = "FALFA" then some FALFA_curve
  else if sid = "ACMAN" then some ACMAN_curve
  else none

/-- Failure kinds of the engine.  `unknownSpecies` and `horizonExceeded` are
the two `ValueError`s raised by `calculate_dbh`; `metaKeyError` is the
`KeyError` raised by the pandas `.loc` metadata lookup for an unregistered
id; `groupKeyError` is the `KeyError` raised by `groupby("project_year")` on
an empty `DataFrame` (no columns); `pyError` is an exception escaping from
`eval` inside `evaluate_agb`. -/
inductive EngineError where
  | unknownSpecies (sid : String)
  | horizonExceeded (sid : String) (maxYears requested : ℤ)
  | metaKeyError (sid : String)
  | groupKeyError
  | pyError (e : PyErr)
deriving DecidableEq

/-- Model of `calculate_dbh` in `app.py` (lines 133-146): look up the curve, fail if
`years > len(arr) - 1`, else return `[arr[t] for t in range(1, years + 1)]`
(empty when `years ≤ 0`; the guard keeps every index in range, so the
`getD` default is never used). -/
def calculate_dbh (sid : String) (years : ℤ) : Except EngineError (List ℚ) :=
  match DBH_VALUES sid with
  | none => Except.error (EngineError.unknownSpecies sid)
  | some arr =>
    if (arr.length : ℤ) - 1 < years then
      Except.error (EngineError.horizonExceeded sid ((arr.length : ℤ) - 1) years)
    else
      Except.ok ((List.range years.toNat).map fun t => arr.getD (t + 1) 0)

/-- One cohort record as built in `get_recs_for_species` (lines 176-180). -/
structure CohortRecord where
  project_year : ℤ
  agb_total : ℚ
  bgb_total : ℚ
deriving DecidableEq

/-- The inner loop of `get_recs_for_species` (lines 173-180):
`for age, dbh in enumerate(dbh_values, 1)`, with `agb = evaluate_agb(eq,
dbh)`, `bgb = agb * rsr`, emitting `{project_year: start + age - 1,
agb_total: agb * cnt, bgb_total: bgb * cnt}`.  An exception from
`evaluate_agb` is not caught here and propagates. -/
def recsForAges (P : MathPrims) (eq : String) (rsr : ℚ) (start cnt : ℤ) :
    ℤ → List ℚ → Except EngineError (List CohortRecord)
  | _, [] => Except.ok []
  | age, dbh :: rest =>
    match evaluate_agb P eq dbh with
    | Except.error e => Except.error (EngineError.pyError e)
    | Except.ok agb =>
      match recsForAges P eq rsr start cnt (age + 1) rest with
      | Except.error e => Except.error e
      | Except.ok more =>
        Except.ok ({ project_year := start + age - 1,
                     agb_total := agb * (cnt : ℚ),
                     bgb_total := (agb * rsr) * (cnt : ℚ) } :: more)

/-- The planting loop of `get_recs_for_species` (lines 162-181): for each
`(start, cnt)` compute `dur = yrs - start + 1`, call `calculate_dbh` (its
`ValueError` is re-raised with the planting year prepended to the message;
the kind is unchanged), then run the age loop; the records of successive
plantings are appended in order. -/
def recsForSched (P : MathPrims) (eq : String) (rsr : ℚ) (sid : String) :
    List (ℤ × ℤ) → ℤ → Except EngineError (List CohortRecord)
  | [], _ => Except.ok []
  | (start, cnt) :: rest, yrs =>
    match calculate_dbh sid (yrs - start + 1) with
    | Except.error e => Except.error e
    | Except.ok dbhs =>
      match recsForAges P eq rsr start cnt 1 dbhs with
      | Except.error e => Except.error e
      | Except.ok recs =>
        match recsForSched P eq rsr sid rest yrs with
        | Except.error e => Except.error e
        | Except.ok more => Except.ok (recs ++ more)

/-- Model of `get_recs_for_species` in `app.py` (lines 159-181). -/
def get_recs_for_species (P : MathPrims) (sid : String) (sched : List (ℤ × ℤ))
    (yrs : ℤ) : Except EngineError (List CohortRecord) :=
  match lookupMeta sid with
  | none => Except.error (EngineError.metaKeyError sid)
  | some er => recsForSched P er.1 er.2 sid sched yrs

/-- One planting-schedule entry as consumed by `run_multi`
(`{"species_id": ..., "year": ..., "trees": ...}`). -/
structure Entry where
  species_id : String
  year : ℤ
  trees : ℤ
deriving DecidableEq

/-- Append a planting to its species' group, preserving
`defaultdict(list)` semantics: groups ordered by first appearance, each
group in record order. -/
def insertGroup (sid : String) (p : ℤ × ℤ) :
    List (String × List (ℤ × ℤ)) → List (String × List (ℤ × ℤ))
  | [] => [(sid, [p])]
  | (s, ps) :: rest =>
    if s = sid then (s, ps ++ [p]) :: rest
    else (s, ps) :: insertGroup sid p rest

/-- The grouping loop of `run_multi` (lines 186-188):
`by_sp[e["species_id"]].append((e["year"], e["trees"]))`. -/
def groupBySpecies (es : List Entry) : List (String × List (ℤ × ℤ)) :=
  es.foldl (fun acc e => insertGroup e.species_id (e.year, e.trees) acc) []

/-- The species loop of `run_multi` (lines 189-197): concatenate
`get_recs_for_species` over the groups, propagating the first error (the
source re-raises a caught `ValueError` with the species id prepended to the
message; the kind is unchanged). -/
def collectRecs (P : MathPrims) :
    List (String × List (ℤ × ℤ)) → ℤ → Except EngineError (List CohortRecord)
  | [], _ => Except.ok []
  | (sid, sched) :: rest, yrs =>
    match get_recs_for_species P sid sched yrs with
    | Except.error e => Except.error e
    | Except.ok rs =>
      match collectRecs P rest yrs with
      | Except.error e => Except.error e
      | Except.ok more => Except.ok (rs ++ more)

/-- The constant `CARBON_FRACTION = 0.5` (line 44). -/
def CARBON_FRACTION : ℚ := 0.5

/-- The constant `CO2E_FACTOR = 44 / 12` (line 45). -/
def CO2E_FACTOR : ℚ := 44 / 12

/-- One row of the aggregated yearly table produced by `run_multi`. -/
structure YearlyResult where
  project_year : ℤ
  agb_total : ℚ
  bgb_total : ℚ
  annual_agb : ℚ
  annual_bgb : ℚ
  annual_biomass : ℚ
  carbon_total : ℚ
  co2e_total : ℚ
  cumulative_co2e : ℚ
deriving DecidableEq

/-- Default row used only as the `List.getD` fallback in statements. -/
def dummyYR : YearlyResult :=
  { project_year := 0, agb_total := 0, bgb_total := 0, annual_agb := 0,
    annual_bgb := 0, annual_biomass := 0, carbon_total := 0, co2e_total := 0,
    cumulative_co2e := 0 }

/-- The distinct project years of the records, ascending — the index of the
`groupby("project_year").sum()` result (pandas sorts group keys; the
subsequent `sort_values` is a no-op on it). -/
def sortedYears (recs : List CohortRecord) : List ℤ :=
  List.insertionSort (fun a b => a ≤ b) ((recs.map fun r => r.project_year).dedup)

/-- Sum of `agb_total` over the records of one project year. -/
def sumAgbAt (recs : List CohortRecord) (y : ℤ) : ℚ :=
  ((recs.filter fun r => r.project_year = y).map fun r => r.agb_total).sum

/-- Sum of `bgb_total` over the records of one project year. -/
def sumBgbAt (recs : List CohortRecord) (y : ℤ) : ℚ :=
  ((recs.filter fun r => r.project_year = y).map fun r => r.bgb_total).sum

/-- The grouped-and-summed frame (lines 199-205): one `(year, agb, bgb)`
triple per distinct project year, years ascending. -/
def groupSum (recs : List CohortRecord) : List (ℤ × ℚ × ℚ) :=
  (sortedYears recs).map fun y => (y, sumAgbAt recs y, sumBgbAt recs y)

/-- One output row from a grouped triple `g`, given the previous row's
cumulative totals (`pa`, `pb`) and the running CO2e sum `cum` (lines
206-211).  `diff()` puts `NaN` in the first row and `fillna(col)` replaces
it by the row's own total, which equals differencing against 0; `aggregate`
therefore starts the recursion at `pa = pb = cum = 0`. -/
def mkRow (pa pb cum : ℚ) (g : ℤ × ℚ × ℚ) : YearlyResult :=
  { project_year := g.1
    agb_total := g.2.1
    bgb_total := g.2.2
    annual_agb := g.2.1 - pa
    annual_bgb := g.2.2 - pb
    annual_biomass := (g.2.1 - pa) + (g.2.2 - pb)
    carbon_total := ((g.2.1 - pa) + (g.2.2 - pb)) * CARBON_FRACTION
    co2e_total := ((g.2.1 - pa) + (g.2.2 - pb)) * CARBON_FRACTION * CO2E_FACTOR
    cumulative_co2e := cum + ((g.2.1 - pa) + (g.2.2 - pb)) * CARBON_FRACTION * CO2E_FACTOR }

/-- The derived columns of lines 206-211 (`diff().fillna`, `annual_biomass`,
`carbon_total`, `co2e_total`, `cumsum`), walking the sorted rows. -/
def addDerived : ℚ → ℚ → ℚ → List (ℤ × ℚ × ℚ) → List YearlyResult
  | _, _, _, [] => []
  | pa, pb, cum, g :: gs =>
    mkRow pa pb cum g :: addDerived g.2.1 g.2.2 (mkRow pa pb cum g).cumulative_co2e gs

/-- The aggregation pipeline of `run_multi` (lines 199-211) on a nonempty
record list: group by year, sum, sort, first-difference, derive carbon and
CO2e columns, accumulate. -/
def aggregate (recs : List CohortRecord) : List YearlyResult :=
  addDerived 0 0 0 (groupSum recs)

/-- Model of `run_multi` in `app.py` (lines 184-212).  With zero records,
`pd.DataFrame([])` has no columns and `groupby("project_year")` raises
`KeyError` — modelled by `groupKeyError`. -/
def run_multi (P : MathPrims) (schedule : List Entry) (yrs : ℤ) :
    Except EngineError (List YearlyResult) :=
  match collectRecs P (groupBySpecies schedule) yrs with
  | Except.error e => Except.error e
  | Except.ok allRecs =>
    if allRecs.isEmpty then Except.error EngineError.groupKeyError
    else Except.ok (aggregate allRecs)

/-- Concrete record set used by the C3 witness (years 1 and 3, with a gap). -/
def wrecs3 : List CohortRecord :=
  [{ project_year := 1, agb_total := 10, bgb_total := 4 },
   { project_year := 3, agb_total := 15, bgb_total := 6 }]

/-- Concrete record set used by the C5 witness. -/
def wrecs5 : List CohortRecord :=
  [{ project_year := 2, agb_total := 8, bgb_total := 2 },
   { project_year := 5, agb_total := 20, bgb_total := 5 }]

/-- First record used by the C9 witness. -/
def wra : CohortRecord := { project_year := 4, agb_total := 6, bgb_total := 3 }

/-- Second record used by the C9 witness. -/
def wrb : CohortRecord := { project_year := 2, agb_total := 12, bgb_total := 1 }


/-- Reading a list off by index with `getD` reproduces the list. -/
theorem getD_range_eq_self (l : List ℚ) :
    (List.range l.length).map (fun t => l.getD t 0) = l := by
  induction l with
  | nil => rfl
  | cons a tl ih =>
    rw [List.length_cons, List.range_succ_eq_map, List.map_cons, List.map_map]
    show a :: List.map ((fun t => (a :: tl).getD t 0) ∘ Nat.succ) (List.range tl.length) = a :: tl
    refine congrArg (List.cons a) ?_
    refine Eq.trans (List.map_congr_left ?_) ih
    intro t ht
    simp [Function.comp, List.getD_cons_succ]

/-- The 1-shifted index read of the whole tail equals `drop 1`. -/
theorem map_range_getD_drop (arr : List ℚ) :
    (List.range (arr.length - 1)).map (fun t => arr.getD (t + 1) 0) = arr.drop 1 := by
  cases arr with
  | nil => rfl
  | cons a tl =>
    show (List.range (tl.length + 1 - 1)).map (fun t => (a :: tl).getD (t + 1) 0) = tl
    rw [Nat.add_sub_cancel]
    refine Eq.trans (List.map_congr_left ?_) (getD_range_eq_self tl)
    intro t ht
    simp [List.getD_cons_succ]

/-- Claim C2: for a registered growth curve `arr` of length `L`,
`calculate_dbh` at duration `L - 1` returns exactly `arr[1..L-1]` in order
(`arr.drop 1`, so index 0 is never returned) with `L - 1` values, and at
duration `L` it fails with the `HorizonExceeded` error carrying the species
id, the maximum supported age and the requested duration. -/
theorem C2_dbh_sequence (sid : String) (arr : List ℚ) (h : DBH_VALUES sid = some arr) :
    calculate_dbh sid ((arr.length : ℤ) - 1) = Except.ok (arr.drop 1) ∧
    (arr.drop 1).length = arr.length - 1 ∧
    calculate_dbh sid (arr.length : ℤ) =
      Except.error (EngineError.horizonExceeded sid ((arr.length : ℤ) - 1) (arr.length : ℤ)) := by
  refine ⟨?_, by rw [List.length_drop], ?_⟩
  · simp only [calculate_dbh, h]
    rw [if_neg (lt_irrefl _),
      (by omega : ((arr.length : ℤ) - 1).toNat = arr.length - 1), map_range_getD_drop]
  · simp only [calculate_dbh, h]
    rw [if_pos (by omega : (arr.length : ℤ) - 1 < (arr.length : ℤ))]

/-- Witness for C2 at the ACMAN curve (length 11). -/
theorem C2_dbh_sequence_witness :
    DBH_VALUES "ACMAN" = some ACMAN_curve ∧
    calculate_dbh "ACMAN" ((ACMAN_curve.length : ℤ) - 1) =
      Except.ok [5.05, 10.10, 15.15, 18.06, 20.97, 23.88, 26.79, 29.70, 32.61, 35.52] ∧
    calculate_dbh "ACMAN" (ACMAN_curve.length : ℤ) =
      Except.error (EngineError.horizonExceeded "ACMAN" ((ACMAN_curve.length : ℤ) - 1)
        (ACMAN_curve.length : ℤ)) := by
  have H := C2_dbh_sequence "ACMAN" ACMAN_curve rfl
  refine ⟨rfl, ?_, H.2.2⟩
  rw [H.1]
  with_unfolding_all rfl

/-- Claim C6: for every equation text (well-formed or not) and every
`dbh ≤ 0`, `evaluate_agb` returns `0.0` without evaluating the formula. -/
theorem C6_nonpositive_dbh (P : MathPrims) (eq : String) (dbh : ℚ) (h : dbh ≤ 0) :
    evaluate_agb P eq dbh = Except.ok 0 := by
  unfold evaluate_agb
  rw [if_pos h]

/-- Witness for C6: the malformed text `((` at `dbh = 0` and `dbh = -5`. -/
theorem C6_nonpositive_dbh_witness :
    evaluate_agb onePrims "((" (-5) = Except.ok 0 ∧
    evaluate_agb onePrims "((" 0 = Except.ok 0 :=
  ⟨C6_nonpositive_dbh onePrims "((" (-5) (by norm_num),
   C6_nonpositive_dbh onePrims "((" 0 le_rfl⟩

/-- Claim C8: in the claim's Cohort Projector context (a species registered
in the metadata table with a nonempty growth curve), a planting whose
duration `yrs - start + 1` is zero or negative contributes no records and
raises no error. -/
theorem C8_zero_duration (P : MathPrims) (sid eq : String) (rsr : ℚ) (arr : List ℚ)
    (start cnt yrs : ℤ) (hm : lookupMeta sid = some (eq, rsr))
    (hd : DBH_VALUES sid = some arr) (hne : arr ≠ [])
    (hdur : yrs - start + 1 ≤ 0) :
    get_recs_for_species P sid [(start, cnt)] yrs = Except.ok [] := by
  have hlen : 0 < arr.length := List.length_pos.mpr hne
  have hc : calculate_dbh sid (yrs - start + 1) = Except.ok [] := by
    simp only [calculate_dbh, hd]
    rw [if_neg (by omega), (by omega : (yrs - start + 1).toNat = 0)]
    rfl
  simp only [get_recs_for_species, hm, recsForSched, hc, recsForAges]
  rfl

/-- Witness for C8: ACMAN planted in year 5 with horizon 2 (duration -2). -/
theorem C8_zero_duration_witness :
    (2 - 5 + 1 : ℤ) ≤ 0 ∧ get_recs_for_species onePrims "ACMAN" [(5, 7)] 2 = Except.ok [] :=
  ⟨by norm_num,
   C8_zero_duration onePrims "ACMAN" "0.1173*(DBH**2.454)/1000" 0.351 ACMAN_curve
     5 7 2 rfl rfl (by simp [ACMAN_curve]) (by norm_num)⟩

/-- Counterexample to claim C1 as stated: at the equation text
`math .sqrt(DBH)` and `dbh = 4 > 0`, the identifier `math` — which is none
of `DBH`, `exp`, `ln` — resolves in the evaluation environment to the
ambient `math` module, and the evaluation succeeds by calling the module's
`sqrt` function, so ambient module functions are reachable from the
equation text. -/
theorem C1_sandbox_counterexample :
    specAllowedIdent "math" = false ∧
    evalNameEnv 4 "math" = some PyVal.mathModule ∧
    evaluate_agb onePrims "math .sqrt(DBH)" 4 = Except.ok 1 :=
  ⟨by decide, rfl, by decide⟩

/-- Claim C1, amended: for `dbh > 0` the evaluation environment disables
Python builtins but binds exactly the names `DBH`, `math` (the full `math`
module) and `__builtins__` (to `None`); every other identifier fails to
resolve, and the ambient `math` module and its functions are reachable from
the equation text (e.g. `math .sqrt(DBH)` evaluates to `sqrt(dbh)`). -/
theorem C1_sandbox_amended (P : MathPrims) (dbh : ℚ) (h : 0 < dbh) :
    (∀ n : String, n ≠ "DBH" → n ≠ "math" → n ≠ "__builtins__" → evalNameEnv dbh n = none) ∧
    evalNameEnv dbh "math" = some PyVal.mathModule ∧
    evalNameEnv dbh "__builtins__" = some PyVal.noneV ∧
    evaluate_agb P "math .sqrt(DBH)" dbh = Except.ok (P.msqrt dbh) := by
  have h1 : ¬ dbh ≤ 0 := not_le.mpr h
  refine ⟨?_, rfl, rfl, ?_⟩
  · intro n hn1 hn2 hn3
    simp only [evalNameEnv, if_neg hn1, if_neg hn2, if_neg hn3]
  · have hp : parseEqText "math .sqrt(DBH)" = some sqrtProbe := rfl
    have he : evalE P dbh sqrtProbe = applyMathFn P MathFnT.fsqrt dbh := rfl
    simp only [evaluate_agb, if_neg h1, hp, he, applyMathFn, if_neg (not_lt.mpr h.le)]
    rfl

/-- Witness for the amended C1 at `dbh = 4`, `P = onePrims`. -/
theorem C1_sandbox_amended_witness :
    evalNameEnv 4 "does_not_exist" = none ∧
    evalNameEnv 4 "math" = some PyVal.mathModule ∧
    evaluate_agb onePrims "math .sqrt(DBH)" 4 = Except.ok 1 := by
  have H := C1_sandbox_amended onePrims 4 (by norm_num)
  exact ⟨H.1 "does_not_exist" (by decide) (by decide) (by decide), H.2.1, H.2.2.2⟩

/-- Counterexample to claim C7 as stated: `math .sqrt(DBH)` is outside the
spec grammar (it contains the identifiers `math` and `sqrt` and an
attribute dot), yet at `dbh = 9 > 0` its evaluation does not fail at all —
it returns `sqrt(9)` — so not every out-of-grammar text fails, let alone
with a dedicated `InvalidEquation` error. -/
theorem C7_invalid_equation_counterexample :
    outsideSpecGrammar "math .sqrt(DBH)" = true ∧
    evaluate_agb onePrims "math .sqrt(DBH)" 9 = Except.ok 1 :=
  ⟨by decide, by decide⟩

/-- Claim C7, amended: for `dbh > 0` a malformed text fails with the Python
`SyntaxError` from `eval` (there is no dedicated `InvalidEquation` error in
the code, and unlike the engine's `ValueError`s this exception is caught
nowhere); an in-grammar-shaped call to an unknown name fails with
`NameError`; and an out-of-grammar text that reaches only `math`-module
attributes, such as `math .sqrt(DBH)`, succeeds. -/
theorem C7_invalid_equation_amended (P : MathPrims) (dbh : ℚ) (h : 0 < dbh) :
    evaluate_agb P "((" dbh = Except.error PyErr.synError ∧
    evaluate_agb P "DBH +" dbh = Except.error PyErr.synError ∧
    evaluate_agb P "foo(DBH)" dbh = Except.error PyErr.nameError ∧
    evaluate_agb P "math .sqrt(DBH)" dbh = Except.ok (P.msqrt dbh) := by
  have h1 : ¬ dbh ≤ 0 := not_le.mpr h
  refine ⟨?_, ?_, ?_, ?_⟩
  · unfold evaluate_agb
    rw [if_neg h1]
    rfl
  · unfold evaluate_agb
    rw [if_neg h1]
    rfl
  · unfold evaluate_agb
    rw [if_neg h1]
    rfl
  · have hp : parseEqText "math .sqrt(DBH)" = some sqrtProbe := rfl
    have he : evalE P dbh sqrtProbe = applyMathFn P MathFnT.fsqrt dbh := rfl
    simp only [evaluate_agb, if_neg h1, hp, he, applyMathFn, if_neg (not_lt.mpr h.le)]
    rfl

/-- Witness for the amended C7 at `dbh = 2`, `P = onePrims`. -/
theorem C7_invalid_equation_amended_witness :
    evaluate_agb onePrims "((" 2 = Except.error PyErr.synError ∧
    evaluate_agb onePrims "foo(DBH)" 2 = Except.error PyErr.nameError ∧
    evaluate_agb onePrims "math .sqrt(DBH)" 2 = Except.ok 1 := by
  have H := C7_invalid_equation_amended onePrims 2 (by norm_num)
  exact ⟨H.1, H.2.2.1, H.2.2.2⟩

/-- Structure of the age loop: when every DBH evaluates successfully (to
`f dbh`), the loop emits exactly one record per age, in order, with the
fields computed from the planting's start year, count and root-to-shoot
ratio. -/
theorem recsForAges_ok (P : MathPrims) (eq : String) (rsr : ℚ) (start cnt : ℤ) (f : ℚ → ℚ) :
    ∀ (dbhs : List ℚ) (age : ℤ), (∀ d ∈ dbhs, evaluate_agb P eq d = Except.ok (f d)) →
      recsForAges P eq rsr start cnt age dbhs =
        Except.ok ((List.range dbhs.length).map fun j =>
          { project_year := start + age + (j : ℤ) - 1,
            agb_total := f (dbhs.getD j 0) * (cnt : ℚ),
            bgb_total := (f (dbhs.getD j 0) * rsr) * (cnt : ℚ) }) := by
  intro dbhs
  induction dbhs with
  | nil => intro age h; rfl
  | cons d tl ih =>
    intro age h
    have hd : evaluate_agb P eq d = Except.ok (f d) := h d (List.mem_cons_self d tl)
    have htl : ∀ x ∈ tl, evaluate_agb P eq x = Except.ok (f x) :=
      fun x hx => h x (List.mem_cons_of_mem d hx)
    simp only [recsForAges, hd]
    rw [ih (age + 1) htl]
    rw [List.length_cons, List.range_succ_eq_map, List.map_cons, List.map_map]
    refine congrArg Except.ok ?_
    congr 1
    · simp only [List.getD_cons_zero, CohortRecord.mk.injEq, Nat.cast_zero]
      exact ⟨by ring, trivial, trivial⟩
    · refine List.map_congr_left ?_
      intro j hj
      simp only [Function.comp, List.getD_cons_succ, CohortRecord.mk.injEq, Nat.cast_succ]
      exact ⟨by ring, trivial, trivial⟩

/-- Claim C4: for a registered species and a single planting `(start, cnt)`
whose DBH lookup succeeds with the sequence `dbhs` and whose per-age
evaluations succeed, the projector emits exactly one record per age
`a = j + 1 ∈ 1..duration`, in order, with `project_year = start + a - 1 =
start + j`, `agb_total = evaluate(eq, dbhs[a]) * cnt` and `bgb_total =
evaluate(eq, dbhs[a]) * rsr * cnt`. -/
theorem C4_cohort_records (P : MathPrims) (sid eq : String) (rsr : ℚ) (start cnt yrs : ℤ)
    (dbhs : List ℚ) (f : ℚ → ℚ)
    (hm : lookupMeta sid = some (eq, rsr))
    (hd : calculate_dbh sid (yrs - start + 1) = Except.ok dbhs)
    (hf : ∀ d ∈ dbhs, evaluate_agb P eq d = Except.ok (f d)) :
    get_recs_for_species P sid [(start, cnt)] yrs =
      Except.ok ((List.range dbhs.length).map fun j =>
        { project_year := start + (j : ℤ),
          agb_total := f (dbhs.getD j 0) * (cnt : ℚ),
          bgb_total := (f (dbhs.getD j 0) * rsr) * (cnt : ℚ) }) := by
  simp only [get_recs_for_species, hm, recsForSched, hd]
  rw [recsForAges_ok P eq rsr start cnt f dbhs 1 hf]
  simp only [recsForSched, List.append_nil]
  refine congrArg Except.ok (List.map_congr_left ?_)
  intro j hj
  simp only [CohortRecord.mk.injEq]
  exact ⟨by ring, trivial, trivial⟩

/-- Witness for C4: ACMAN, planting `(1, 10)`, horizon 1, so one age with
`dbh = 5.05`; under `onePrims` the equation evaluates to `0.0001173`. -/
theorem C4_cohort_records_witness :
    get_recs_for_species onePrims "ACMAN" [(1, 10)] 1 =
      Except.ok [{ project_year := 1,
                   agb_total := (0.0001173 : ℚ) * (10 : ℚ),
                   bgb_total := ((0.0001173 : ℚ) * (0.351 : ℚ)) * (10 : ℚ) }] := by
  have H := C4_cohort_records onePrims "ACMAN" "0.1173*(DBH**2.454)/1000" 0.351 1 10 1
    [5.05] (fun _ => 0.0001173) rfl (by with_unfolding_all rfl) ?_
  · rw [H]
    with_unfolding_all rfl
  · intro d hd
    rw [List.mem_singleton] at hd
    subst hd
    with_unfolding_all rfl

/-- The function `addDerived` keeps one row per grouped triple. -/
theorem addDerived_length : ∀ (gs : List (ℤ × ℚ × ℚ)) (pa pb c : ℚ),
    (addDerived pa pb c gs).length = gs.length := by
  intro gs
  induction gs with
  | nil => intro pa pb c; rfl
  | cons g tl ih =>
    intro pa pb c
    simp only [addDerived, List.length_cons, ih]

/-- The function `addDerived` keeps the project years of the grouped triples. -/
theorem addDerived_map_year : ∀ (gs : List (ℤ × ℚ × ℚ)) (pa pb c : ℚ),
    (addDerived pa pb c gs).map (fun r => r.project_year) = gs.map (fun g => g.1) := by
  intro gs
  induction gs with
  | nil => intro pa pb c; rfl
  | cons g tl ih =>
    intro pa pb c
    simp only [addDerived, List.map_cons, mkRow, ih]

/-- The function `addDerived` keeps the cumulative `agb_total` column. -/
theorem addDerived_getD_agb : ∀ (gs : List (ℤ × ℚ × ℚ)) (pa pb c : ℚ) (i : ℕ),
    i < gs.length →
    ((addDerived pa pb c gs).getD i dummyYR).agb_total = (gs.getD i (0, 0, 0)).2.1 := by
  intro gs
  induction gs with
  | nil => intro _ _ _ i hi; exact absurd hi (Nat.not_lt_zero i)
  | cons g tl ih =>
    intro pa pb c i hi
    cases i with
    | zero => simp [addDerived, mkRow]
    | succ k =>
      have hk : k < tl.length := by
        simp only [List.length_cons] at hi
        omega
      simp only [addDerived, List.getD_cons_succ]
      exact ih _ _ _ k hk

/-- The function `addDerived` keeps the cumulative `bgb_total` column. -/
theorem addDerived_getD_bgb : ∀ (gs : List (ℤ × ℚ × ℚ)) (pa pb c : ℚ) (i : ℕ),
    i < gs.length →
    ((addDerived pa pb c gs).getD i dummyYR).bgb_total = (gs.getD i (0, 0, 0)).2.2 := by
  intro gs
  induction gs with
  | nil => intro _ _ _ i hi; exact absurd hi (Nat.not_lt_zero i)
  | cons g tl ih =>
    intro pa pb c i hi
    cases i with
    | zero => simp [addDerived, mkRow]
    | succ k =>
      have hk : k < tl.length := by
        simp only [List.length_cons] at hi
        omega
      simp only [addDerived, List.getD_cons_succ]
      exact ih _ _ _ k hk

/-- The `annual_agb` column of row `i` is the first difference of the
cumulative `agb_total` column, against `pa` for the first row. -/
theorem addDerived_getD_annual_agb : ∀ (gs : List (ℤ × ℚ × ℚ)) (pa pb c : ℚ) (i : ℕ),
    i < gs.length →
    ((addDerived pa pb c gs).getD i dummyYR).annual_agb =
      (gs.getD i (0, 0, 0)).2.1 - (if i = 0 then pa else (gs.getD (i - 1) (0, 0, 0)).2.1) := by
  intro gs
  induction gs with
  | nil => intro _ _ _ i hi; exact absurd hi (Nat.not_lt_zero i)
  | cons g tl ih =>
    intro pa pb c i hi
    cases i with
    | zero => simp [addDerived, mkRow]
    | succ k =>
      have hk : k < tl.length := by
        simp only [List.length_cons] at hi
        omega
      simp only [addDerived, List.getD_cons_succ]
      rw [ih g.2.1 g.2.2 ((mkRow pa pb c g).cumulative_co2e) k hk]
      cases k with
      | zero => simp
      | succ m => simp [List.getD_cons_succ]

/-- The `annual_bgb` column of row `i` is the first difference of the
cumulative `bgb_total` column, against `pb` for the first row. -/
theorem addDerived_getD_annual_bgb : ∀ (gs : List (ℤ × ℚ × ℚ)) (pa pb c : ℚ) (i : ℕ),
    i < gs.length →
    ((addDerived pa pb c gs).getD i dummyYR).annual_bgb =
      (gs.getD i (0, 0, 0)).2.2 - (if i = 0 then pb else (gs.getD (i - 1) (0, 0, 0)).2.2) := by
  intro gs
  induction gs with
  | nil => intro _ _ _ i hi; exact absurd hi (Nat.not_lt_zero i)
  | cons g tl ih =>
    intro pa pb c i hi
    cases i with
    | zero => simp [addDerived, mkRow]
    | succ k =>
      have hk : k < tl.length := by
        simp only [List.length_cons] at hi
        omega
      simp only [addDerived, List.getD_cons_succ]
      rw [ih g.2.1 g.2.2 ((mkRow pa pb c g).cumulative_co2e) k hk]
      cases k with
      | zero => simp
      | succ m => simp [List.getD_cons_succ]

/-- Every row built by `addDerived` satisfies the biomass / carbon / CO2e
column definitions. -/
theorem addDerived_mem : ∀ (gs : List (ℤ × ℚ × ℚ)) (pa pb c : ℚ) (r : YearlyResult),
    r ∈ addDerived pa pb c gs →
    r.annual_biomass = r.annual_agb + r.annual_bgb ∧
    r.carbon_total = r.annual_biomass * CARBON_FRACTION ∧
    r.co2e_total = r.carbon_total * CO2E_FACTOR := by
  intro gs
  induction gs with
  | nil => intro _ _ _ r hr; exact absurd hr (List.not_mem_nil r)
  | cons g tl ih =>
    intro pa pb c r hr
    rcases List.mem_cons.mp hr with h | h
    · subst h
      exact ⟨rfl, rfl, rfl⟩
    · exact ih _ _ _ r h

/-- The `cumulative_co2e` column of row `i` is the starting value `c` plus
the partial sum of the `co2e_total` column up to row `i`. -/
theorem addDerived_getD_cum : ∀ (gs : List (ℤ × ℚ × ℚ)) (pa pb c : ℚ) (i : ℕ),
    i < gs.length →
    ((addDerived pa pb c gs).getD i dummyYR).cumulative_co2e =
      c + (((addDerived pa pb c gs).take (i + 1)).map (fun r => r.co2e_total)).sum := by
  intro gs
  induction gs with
  | nil => intro _ _ _ i hi; exact absurd hi (Nat.not_lt_zero i)
  | cons g tl ih =>
    intro pa pb c i hi
    cases i with
    | zero => simp [addDerived, mkRow]
    | succ k =>
      have hk : k < tl.length := by
        simp only [List.length_cons] at hi
        omega
      simp only [addDerived, List.getD_cons_succ, List.take_succ_cons, List.map_cons,
        List.sum_cons]
      rw [ih g.2.1 g.2.2 ((mkRow pa pb c g).cumulative_co2e) k hk]
      simp only [mkRow]
      ring

/-- The sorted distinct year list is invariant under permutation of the
records. -/
theorem sortedYears_eq_of_perm {l1 l2 : List CohortRecord} (h : l1.Perm l2) :
    sortedYears l1 = sortedYears l2 := by
  refine List.eq_of_perm_of_sorted ?_ (List.sorted_insertionSort _ _)
    (List.sorted_insertionSort _ _)
  exact (List.perm_insertionSort _ _).trans
    (((h.map _).dedup).trans (List.perm_insertionSort _ _).symm)

/-- The per-year `agb_total` sum is invariant under permutation. -/
theorem sumAgbAt_eq_of_perm {l1 l2 : List CohortRecord} (h : l1.Perm l2) (y : ℤ) :
    sumAgbAt l1 y = sumAgbAt l2 y :=
  List.Perm.sum_eq ((h.filter _).map _)

/-- The per-year `bgb_total` sum is invariant under permutation. -/
theorem sumBgbAt_eq_of_perm {l1 l2 : List CohortRecord} (h : l1.Perm l2) (y : ℤ) :
    sumBgbAt l1 y = sumBgbAt l2 y :=
  List.Perm.sum_eq ((h.filter _).map _)

/-- The grouped-and-summed frame is invariant under permutation. -/
theorem groupSum_eq_of_perm {l1 l2 : List CohortRecord} (h : l1.Perm l2) :
    groupSum l1 = groupSum l2 := by
  unfold groupSum
  rw [sortedYears_eq_of_perm h]
  refine List.map_congr_left ?_
  intro y hy
  rw [sumAgbAt_eq_of_perm h, sumBgbAt_eq_of_perm h]

/-- The years of the grouped frame are the sorted distinct input years. -/
theorem groupSum_map_fst (recs : List CohortRecord) :
    (groupSum recs).map (fun g => g.1) = sortedYears recs := by
  unfold groupSum
  rw [List.map_map]
  exact List.map_id _

/-- Claim C9: `aggregate` gives identical output on any two orderings of the
same records, and its rows are in strictly ascending `project_year` order. -/
theorem C9_aggregate_order (l1 l2 : List CohortRecord) (h : l1.Perm l2) :
    aggregate l1 = aggregate l2 ∧
    List.Pairwise (fun a b : ℤ => a < b) ((aggregate l1).map fun r => r.project_year) := by
  constructor
  · unfold aggregate
    rw [groupSum_eq_of_perm h]
  · rw [show (aggregate l1).map (fun r => r.project_year) = sortedYears l1 from by
      unfold aggregate
      rw [addDerived_map_year, groupSum_map_fst]]
    have hs : List.Sorted (fun a b : ℤ => a ≤ b) (sortedYears l1) :=
      List.sorted_insertionSort _ _
    have hn : (sortedYears l1).Nodup :=
      ((List.perm_insertionSort _ _).nodup_iff).mpr (List.nodup_dedup _)
    exact hs.lt_of_le hn

/-- Witness for C9: two records in the two possible orders. -/
theorem C9_aggregate_order_witness :
    aggregate [wra, wrb] = aggregate [wrb, wra] ∧
    List.Pairwise (fun a b : ℤ => a < b) ((aggregate [wra, wrb]).map fun r => r.project_year) :=
  C9_aggregate_order [wra, wrb] [wrb, wra] (List.Perm.swap wrb wra [])

/-- Claim C3: on a nonempty record set the aggregated rows satisfy the
first-difference rule — the first row's annual columns equal its cumulative
totals, every later row's annual columns are the difference with the
previous row — and the output has exactly one row per distinct input year
(gaps are not backfilled with zero rows). -/
theorem C3_first_difference (recs : List CohortRecord) (h : recs ≠ []) :
    (((aggregate recs).getD 0 dummyYR).annual_agb =
      ((aggregate recs).getD 0 dummyYR).agb_total) ∧
    (((aggregate recs).getD 0 dummyYR).annual_bgb =
      ((aggregate recs).getD 0 dummyYR).bgb_total) ∧
    (∀ i : ℕ, 0 < i → i < (aggregate recs).length →
      ((aggregate recs).getD i dummyYR).annual_agb =
        ((aggregate recs).getD i dummyYR).agb_total -
          ((aggregate recs).getD (i - 1) dummyYR).agb_total ∧
      ((aggregate recs).getD i dummyYR).annual_bgb =
        ((aggregate recs).getD i dummyYR).bgb_total -
          ((aggregate recs).getD (i - 1) dummyYR).bgb_total) ∧
    ((aggregate recs).map fun r => r.project_year) = sortedYears recs := by
  have hg : 0 < (groupSum recs).length := by
    unfold groupSum sortedYears
    rw [List.length_map, List.length_insertionSort]
    refine List.length_pos.mpr ?_
    intro hnil
    exact h (List.map_eq_nil_iff.mp ((List.dedup_eq_nil _).mp hnil))
  refine ⟨?_, ?_, ?_, ?_⟩
  · show ((addDerived 0 0 0 (groupSum recs)).getD 0 dummyYR).annual_agb =
      ((addDerived 0 0 0 (groupSum recs)).getD 0 dummyYR).agb_total
    rw [addDerived_getD_annual_agb _ 0 0 0 0 hg, addDerived_getD_agb _ 0 0 0 0 hg]
    simp
  · show ((addDerived 0 0 0 (groupSum recs)).getD 0 dummyYR).annual_bgb =
      ((addDerived 0 0 0 (groupSum recs)).getD 0 dummyYR).bgb_total
    rw [addDerived_getD_annual_bgb _ 0 0 0 0 hg, addDerived_getD_bgb _ 0 0 0 0 hg]
    simp
  · intro i h0 hi
    have hi' : i < (groupSum recs).length := by
      rw [show (aggregate recs).length = (groupSum recs).length from addDerived_length _ 0 0 0] at hi
      exact hi
    have hi'' : i - 1 < (groupSum recs).length := by omega
    rw [show aggregate recs = addDerived 0 0 0 (groupSum recs) from rfl]
    constructor
    · rw [addDerived_getD_annual_agb _ 0 0 0 i hi',
        addDerived_getD_agb _ 0 0 0 i hi', addDerived_getD_agb _ 0 0 0 (i - 1) hi'',
        if_neg (Nat.pos_iff_ne_zero.mp h0)]
    · rw [addDerived_getD_annual_bgb _ 0 0 0 i hi',
        addDerived_getD_bgb _ 0 0 0 i hi', addDerived_getD_bgb _ 0 0 0 (i - 1) hi'',
        if_neg (Nat.pos_iff_ne_zero.mp h0)]
  · show (addDerived 0 0 0 (groupSum recs)).map (fun r => r.project_year) = sortedYears recs
    rw [addDerived_map_year, groupSum_map_fst]

/-- Witness for C3 at two records with years 1 and 3. -/
theorem C3_first_difference_witness :
    wrecs3 ≠ [] ∧
    ((aggregate wrecs3).getD 0 dummyYR).annual_agb =
      ((aggregate wrecs3).getD 0 dummyYR).agb_total ∧
    (((aggregate wrecs3).getD 1 dummyYR).annual_agb =
      ((aggregate wrecs3).getD 1 dummyYR).agb_total -
        ((aggregate wrecs3).getD 0 dummyYR).agb_total) := by
  have H := C3_first_difference wrecs3 (by simp [wrecs3])
  exact ⟨by simp [wrecs3], H.1, (H.2.2.1 1 (by norm_num) (by decide)).1⟩

/-- Claim C5: every aggregated row has `carbon_total = annual_biomass * 0.5`
and `co2e_total = carbon_total * (44 / 12)` (with
`annual_biomass = annual_agb + annual_bgb`), and `cumulative_co2e` at index
`i` is the running sum of `co2e_total` over rows `0..i` of the sorted year
sequence. -/
theorem C5_carbon_co2e_chain (recs : List CohortRecord) :
    (∀ r ∈ aggregate recs,
      r.annual_biomass = r.annual_agb + r.annual_bgb ∧
      r.carbon_total = r.annual_biomass * (0.5 : ℚ) ∧
      r.co2e_total = r.carbon_total * ((44 : ℚ) / 12)) ∧
    (∀ i : ℕ, i < (aggregate recs).length →
      ((aggregate recs).getD i dummyYR).cumulative_co2e =
        (((aggregate recs).take (i + 1)).map fun r => r.co2e_total).sum) := by
  constructor
  · intro r hr
    obtain ⟨h1, h2, h3⟩ := addDerived_mem (groupSum recs) 0 0 0 r hr
    exact ⟨h1, h2, h3⟩
  · intro i hi
    have hi' : i < (groupSum recs).length := by
      rw [show (aggregate recs).length = (groupSum recs).length from addDerived_length _ 0 0 0] at hi
      exact hi
    have := addDerived_getD_cum (groupSum recs) 0 0 0 i hi'
    rw [show aggregate recs = addDerived 0 0 0 (groupSum recs) from rfl, this, zero_add]

/-- Witness for C5 at two records with years 2 and 5. -/
theorem C5_carbon_co2e_chain_witness :
    ((aggregate wrecs5).getD 0 dummyYR).carbon_total =
      ((aggregate wrecs5).getD 0 dummyYR).annual_biomass * (0.5 : ℚ) ∧
    ((aggregate wrecs5).getD 1 dummyYR).cumulative_co2e =
      (((aggregate wrecs5).take 2).map fun r => r.co2e_total).sum := by
  have hlen : 0 < (aggregate wrecs5).length := by decide
  have hmem : (aggregate wrecs5).getD 0 dummyYR ∈ aggregate wrecs5 := by
    rw [List.getD_eq_getElem _ _ hlen]
    exact List.getElem_mem hlen
  exact ⟨((C5_carbon_co2e_chain wrecs5).1 _ hmem).2.1,
    (C5_carbon_co2e_chain wrecs5).2 1 (by decide)⟩

/-- The function `insertGroup` preserves the per-group invariant: every group is nonempty
and all its pairs satisfy `R` at the group's species id. -/
theorem insertGroup_pres (R : String → (ℤ × ℤ) → Prop) (sid : String) (p : ℤ × ℤ) :
    ∀ (acc : List (String × List (ℤ × ℤ))),
      (∀ s ps, (s, ps) ∈ acc → ps ≠ [] ∧ ∀ q ∈ ps, R s q) →
      R sid p →
      ∀ s ps, (s, ps) ∈ insertGroup sid p acc → ps ≠ [] ∧ ∀ q ∈ ps, R s q := by
  intro acc
  induction acc with
  | nil =>
    intro _ hp s ps hmem
    simp only [insertGroup, List.mem_singleton] at hmem
    injection hmem with h1 h2
    subst h1
    subst h2
    refine ⟨by simp, ?_⟩
    intro q hq
    rw [List.mem_singleton] at hq
    subst hq
    exact hp
  | cons hd tl ih =>
    intro hacc hp s ps hmem
    obtain ⟨s0, ps0⟩ := hd
    simp only [insertGroup] at hmem
    by_cases hcase : s0 = sid
    · rw [if_pos hcase] at hmem
      rcases List.mem_cons.mp hmem with hmem | hmem
      · injection hmem with h1 h2
        subst h1
        subst h2
        have h0 := hacc s ps0 (List.mem_cons_self _ _)
        refine ⟨by simp, ?_⟩
        intro q hq
        rcases List.mem_append.mp hq with hq | hq
        · exact h0.2 q hq
        · rw [List.mem_singleton] at hq
          subst hq
          exact hcase ▸ hp
      · exact hacc s ps (List.mem_cons_of_mem _ hmem)
    · rw [if_neg hcase] at hmem
      rcases List.mem_cons.mp hmem with hmem | hmem
      · injection hmem with h1 h2
        rw [h1, h2]
        exact hacc s0 ps0 (List.mem_cons_self _ _)
      · exact ih (fun s1 ps1 hm => hacc s1 ps1 (List.mem_cons_of_mem _ hm)) hp s ps hmem

/-- The grouping fold of `run_multi` preserves the per-group invariant. -/
theorem foldl_groups_pres (R : String → (ℤ × ℤ) → Prop) :
    ∀ (es : List Entry) (acc : List (String × List (ℤ × ℤ))),
      (∀ s ps, (s, ps) ∈ acc → ps ≠ [] ∧ ∀ q ∈ ps, R s q) →
      (∀ e ∈ es, R e.species_id (e.year, e.trees)) →
      ∀ s ps,
        (s, ps) ∈ es.foldl (fun a e => insertGroup e.species_id (e.year, e.trees) a) acc →
        ps ≠ [] ∧ ∀ q ∈ ps, R s q := by
  intro es
  induction es with
  | nil => intro acc hacc _ s ps hm; exact hacc s ps hm
  | cons e tl ih =>
    intro acc hacc hes s ps hm
    simp only [List.foldl_cons] at hm
    exact ih _
      (insertGroup_pres R e.species_id (e.year, e.trees) acc hacc
        (hes e (List.mem_cons_self _ _)))
      (fun x hx => hes x (List.mem_cons_of_mem _ hx)) s ps hm

/-- A schedule of plantings of a registered species that all start after the
horizon produces no records and no error. -/
theorem recsForSched_empty (P : MathPrims) (eq : String) (rsr : ℚ) (sid : String)
    (arr : List ℚ) (hd : DBH_VALUES sid = some arr) (hne : arr ≠ []) :
    ∀ (ps : List (ℤ × ℤ)) (yrs : ℤ), (∀ q ∈ ps, yrs < q.1) →
      recsForSched P eq rsr sid ps yrs = Except.ok [] := by
  intro ps
  induction ps with
  | nil => intro yrs _; rfl
  | cons q tl ih =>
    intro yrs hq
    obtain ⟨start, cnt⟩ := q
    have hstart : yrs < start := hq (start, cnt) (List.mem_cons_self _ _)
    have hlen : 0 < arr.length := List.length_pos.mpr hne
    have hc : calculate_dbh sid (yrs - start + 1) = Except.ok [] := by
      simp only [calculate_dbh, hd]
      rw [if_neg (by omega), (by omega : (yrs - start + 1).toNat = 0)]
      rfl
    simp only [recsForSched, hc, recsForAges]
    rw [ih yrs (fun x hx => hq x (List.mem_cons_of_mem _ hx))]
    rfl

/-- When every group consists of a registered species (nonempty curve) whose
plantings all start after the horizon, the species loop collects no
records. -/
theorem collectRecs_empty (P : MathPrims) :
    ∀ (gs : List (String × List (ℤ × ℤ))) (yrs : ℤ),
      (∀ s ps, (s, ps) ∈ gs → ps ≠ [] ∧ ∀ q ∈ ps,
        (lookupMeta s ≠ none ∧ (DBH_VALUES s).getD [] ≠ []) ∧ yrs < q.1) →
      collectRecs P gs yrs = Except.ok [] := by
  intro gs
  induction gs with
  | nil => intro yrs _; rfl
  | cons g tl ih =>
    intro yrs hyp
    obtain ⟨sid, ps⟩ := g
    obtain ⟨hne, hR⟩ := hyp sid ps (List.mem_cons_self _ _)
    obtain ⟨q0, hq0⟩ := List.exists_mem_of_ne_nil ps hne
    have hreg := (hR q0 hq0).1
    obtain ⟨er, her⟩ := Option.ne_none_iff_exists'.mp hreg.1
    obtain ⟨arr, harr, harrne⟩ : ∃ arr, DBH_VALUES sid = some arr ∧ arr ≠ [] := by
      cases hdv : DBH_VALUES sid with
      | none =>
        rw [hdv] at hreg
        exact absurd rfl hreg.2
      | some a =>
        refine ⟨a, rfl, ?_⟩
        have := hreg.2
        rw [hdv] at this
        exact this
    have hrs : get_recs_for_species P sid ps yrs = Except.ok [] := by
      simp only [get_recs_for_species, her]
      exact recsForSched_empty P er.1 er.2 sid arr harr harrne ps yrs
        (fun q hq => (hR q hq).2)
    simp only [collectRecs, hrs]
    rw [ih yrs (fun s ps1 hm => hyp s ps1 (List.mem_cons_of_mem _ hm))]
    rfl

/-- Claim C10: a schedule that produces zero cohort records in total — empty,
or with every planting of a registered species starting after the horizon —
makes `run_multi` fail with the `KeyError` of grouping an empty frame, an
error distinct from every declared engine error (`UnknownSpecies`,
`HorizonExceeded`, and the Python exceptions standing for
`InvalidEquation` / `DomainError`); no empty result sequence is returned. -/
theorem C10_empty_group_keyerror (P : MathPrims) (schedule : List Entry) (yrs : ℤ)
    (h : ∀ e ∈ schedule, lookupMeta e.species_id ≠ none ∧
      (DBH_VALUES e.species_id).getD [] ≠ [] ∧ yrs < e.year) :
    run_multi P schedule yrs = Except.error EngineError.groupKeyError ∧
    (∀ s, EngineError.groupKeyError ≠ EngineError.unknownSpecies s) ∧
    (∀ s m r, EngineError.groupKeyError ≠ EngineError.horizonExceeded s m r) ∧
    (∀ e, EngineError.groupKeyError ≠ EngineError.pyError e) := by
  refine ⟨?_, fun s => by simp, fun s m r => by simp, fun e => by simp⟩
  have hcol : collectRecs P (groupBySpecies schedule) yrs = Except.ok [] := by
    refine collectRecs_empty P (groupBySpecies schedule) yrs ?_
    exact foldl_groups_pres
      (fun s q => (lookupMeta s ≠ none ∧ (DBH_VALUES s).getD [] ≠ []) ∧ yrs < q.1)
      schedule []
      (fun s1 ps1 hmem => absurd hmem (List.not_mem_nil _))
      (fun e he => ⟨⟨(h e he).1, (h e he).2.1⟩, (h e he).2.2⟩)
  simp only [run_multi, hcol]
  rfl

/-- Witness for C10: one ACMAN planting starting in year 5 with horizon 2. -/
theorem C10_empty_group_keyerror_witness :
    run_multi onePrims [{ species_id := "ACMAN", year := 5, trees := 10 }] 2 =
      Except.error EngineError.groupKeyError := by
  refine (C10_empty_group_keyerror onePrims _ 2 ?_).1
  intro e he
  rw [List.mem_singleton] at he
  subst he
  refine ⟨by decide, by decide, by norm_num⟩
